import Mathlib

/-!
Shallow embedding of madsim's simulated network subsystem
(`src/madsim/src/sim/net/network.rs`).

Modelling choices:
* `NodeId` is `Nat` (the runtime's opaque identifier).
* Hash maps and hash sets are modelled as functions (`NodeId → Option Node`,
  `NodeId → Bool`, ...); `HashMap.insert`/`HashSet.insert` become pointwise
  updates, exactly matching their observable semantics.
* `f64` values are carried as their 64-bit patterns (`Nat`), decoded to `ℚ`
  by `F64.toRat` (IEEE 754 binary64) where a numeric value is needed.
* The shared PRNG is a stream of uniform draws `u ∈ [0,1)` (`Nat → ℚ`) plus a
  cursor; `gen_bool p` consumes one draw and tests `u < p`, `gen_range lo hi`
  consumes one draw and returns `lo + ⌊u·(hi-lo)⌋`, matching the `rand`
  crate's observable contract for the calls made by `test_link`.
* `Duration` is total nanoseconds (`Nat`).
* A Rust panic (`expect`/`unwrap`/failed `assert!`) is modelled as `none` of
  an `Option`-returning function, or the `panicked` constructor of
  `SendResult` for `try_send`.
-/

/-- Opaque node identifier minted by the runtime. -/
abbrev NodeId := Nat

/-- Opaque socket capability; the network never interprets it, so a token
suffices. -/
abbrev Socket := Nat

/-- Cancel handle for a scheduled delivery (`FallibleTask<()>`), opaque. -/
abbrev TaskHandle := Nat

/-- Duration in nanoseconds. -/
abbrev Duration := Nat

/-- `std::net::IpAddr`: a v4 address as four octets or a v6 address as its
128-bit value. -/
inductive IpAddr where
  | v4 (a b c d : Nat)
  | v6 (x : Nat)
deriving DecidableEq, Repr

namespace IpAddr

/-- `IpAddr::is_loopback`: `127.0.0.0/8` for v4, `::1` for v6. -/
def is_loopback : IpAddr → Bool
  | .v4 a _ _ _ => a == 127
  | .v6 x => x == 1

/-- `IpAddr::is_unspecified`: `0.0.0.0` for v4, `::` for v6. -/
def is_unspecified : IpAddr → Bool
  | .v4 a b c d => a == 0 && b == 0 && c == 0 && d == 0
  | .v6 x => x == 0

/-- `Ipv4Addr::LOCALHOST` as an `IpAddr`. -/
def localhost : IpAddr := .v4 127 0 0 1

/-- `Ipv4Addr::UNSPECIFIED` as an `IpAddr`. -/
def unspecified : IpAddr := .v4 0 0 0 0

end IpAddr

/-- `std::net::SocketAddr`: IP plus port. -/
structure SocketAddr where
  ip : IpAddr
  port : Nat
deriving DecidableEq, Repr

/-- `IpProtocol`. -/
inductive IpProtocol where
  | Tcp
  | Udp
deriving DecidableEq, Repr

/-- `Direction` of a link clog. -/
inductive Direction where
  | In
  | Out
  | Both
deriving DecidableEq, Repr

/-! ## IEEE 754 binary64 decoding (for `packet_loss_rate : f64`) -/

namespace F64

/-- Sign bit of a 64-bit pattern. -/
def sign (b : Nat) : Nat := b / 2 ^ 63 % 2

/-- Biased exponent field (11 bits). -/
def expo (b : Nat) : Nat := b / 2 ^ 52 % 2 ^ 11

/-- Fraction field (52 bits). -/
def frac (b : Nat) : Nat := b % 2 ^ 52

/-- The pattern encodes a NaN. -/
def isNaN (b : Nat) : Bool := expo b == 2047 && frac b != 0

/-- The pattern encodes `+0.0` or `-0.0`. -/
def isZeroMag (b : Nat) : Bool := expo b == 0 && frac b == 0

/-- Magnitude of the encoded value as a rational (treating the infinity
patterns as the next power of two, which keeps decoding injective). -/
def mag (b : Nat) : ℚ :=
  if expo b = 0 then (frac b : ℚ) * 2 / 2 ^ 1075
  else ((2 ^ 52 + frac b : Nat) : ℚ) * 2 ^ expo b / 2 ^ 1075

/-- Value of the encoded `f64` as a rational. -/
def toRat (b : Nat) : ℚ :=
  if sign b = 1 then -mag b else mag b

/-- Primitive `f64` equality (`==` on floats): any NaN compares unequal,
otherwise the numeric values are compared (so `+0.0 == -0.0`). -/
def beq (a b : Nat) : Bool :=
  !isNaN a && !isNaN b && decide (toRat a = toRat b)

end F64

/-! ## Config and Stat -/

/-- `Config`: `packet_loss_rate` is carried as its `f64` bit pattern,
`send_latency` as a half-open range of nanosecond counts. -/
structure Config where
  packet_loss_rate : Nat
  send_latency : Nat × Nat
deriving DecidableEq, Repr

namespace Config

/-- `default_send_latency()`: `1ms..10ms`. -/
def default_send_latency : Nat × Nat := (1000000, 10000000)

/-- `impl Default for Config`: loss rate `0.0` (bit pattern 0). -/
def default : Config := ⟨0, default_send_latency⟩

/-- Derived `PartialEq for Config`: field-wise, with primitive float
equality on `packet_loss_rate` and exact equality on the range. -/
def beq (c1 c2 : Config) : Bool :=
  F64.beq c1.packet_loss_rate c2.packet_loss_rate
    && c1.send_latency.1 == c2.send_latency.1
    && c1.send_latency.2 == c2.send_latency.2

/-- `impl Hash for Config`: the words fed to the hasher, in order —
`packet_loss_rate.to_bits()` then the range bounds.  (An ideal hasher
collides exactly on equal input streams.) -/
def hashInput (c : Config) : Nat × Nat × Nat :=
  (c.packet_loss_rate, c.send_latency.1, c.send_latency.2)

end Config

/-- `Stat`. -/
structure Stat where
  msg_count : Nat
deriving DecidableEq, Repr

/-! ## PRNG interface -/

/-- The shared seeded generator: an infinite stream `f` of uniform draws in
`[0,1)` and a cursor `idx` marking how many draws were consumed. -/
structure Rng where
  f : Nat → ℚ
  idx : Nat

namespace Rng

/-- `Rng::gen_bool(p)`: draw `u ∈ [0,1)`, return `u < p`. -/
def gen_bool (r : Rng) (p : ℚ) : Bool × Rng :=
  (decide (r.f r.idx < p), ⟨r.f, r.idx + 1⟩)

/-- `Rng::gen_range(lo..hi)`: draw `u ∈ [0,1)`, return `lo + ⌊u·(hi-lo)⌋`
(uniform over the half-open range when `lo < hi`). -/
def gen_range (r : Rng) (lo hi : Nat) : Nat × Rng :=
  (lo + (⌊r.f r.idx * ((hi - lo : Nat) : ℚ)⌋).toNat, ⟨r.f, r.idx + 1⟩)

end Rng

/-! ## Node and Network state -/

/-- A node record. -/
structure Node where
  ip : Option IpAddr
  sockets : SocketAddr × IpProtocol → Option Socket
  tasks : List TaskHandle

/-- `Default for Node`: empty record. -/
def Node.default : Node := ⟨none, fun _ => none, []⟩

/-- The simulated network state. -/
structure Network where
  rand : Rng
  config : Config
  stat : Stat
  nodes : NodeId → Option Node
  addr_to_node : IpAddr → Option NodeId
  clogged_node_in : NodeId → Bool
  clogged_node_out : NodeId → Bool
  clogged_link : NodeId × NodeId → Bool

namespace Network

/-- `Network::new`. -/
def new (rand : Rng) (config : Config) : Network :=
  ⟨rand, config, ⟨0⟩, fun _ => none, fun _ => none, fun _ => false,
    fun _ => false, fun _ => false⟩

/-- `Network::update_config`. -/
def update_config (net : Network) (f : Config → Config) : Network :=
  { net with config := f net.config }

/-- `Network::insert_node`: unconditionally inserts a fresh default record. -/
def insert_node (net : Network) (id : NodeId) : Network :=
  { net with nodes := fun n => if n = id then some Node.default else net.nodes n }

/-- `Network::reset_node`: panics (`none`) when the node is absent, else
clears its sockets and task handles. -/
def reset_node (net : Network) (id : NodeId) : Option Network :=
  match net.nodes id with
  | none => none
  | some node =>
      some { net with
        nodes := fun n =>
          if n = id then some { node with sockets := fun _ => none, tasks := [] }
          else net.nodes n }

/-- `Network::set_ip`: panics when the node is absent or the IP is already
bound to a different node; removes the old reverse-index entry first. -/
def set_ip (net : Network) (id : NodeId) (ip : IpAddr) : Option Network :=
  match net.nodes id with
  | none => none
  | some node =>
      let addr1 : IpAddr → Option NodeId :=
        match node.ip with
        | some old_ip => fun a => if a = old_ip then none else net.addr_to_node a
        | none => net.addr_to_node
      match addr1 ip with
      | some _ => none
      | none =>
          some { net with
            nodes := fun n => if n = id then some { node with ip := some ip }
                              else net.nodes n,
            addr_to_node := fun a => if a = ip then some id else addr1 a }

/-- `Network::clog_node`: panics when the node is absent. -/
def clog_node (net : Network) (id : NodeId) (d : Direction) : Option Network :=
  match net.nodes id with
  | none => none
  | some _ =>
      let net1 :=
        if d = Direction.In ∨ d = Direction.Both then
          { net with clogged_node_in := fun n => if n = id then true else net.clogged_node_in n }
        else net
      some <|
        if d = Direction.Out ∨ d = Direction.Both then
          { net1 with clogged_node_out := fun n => if n = id then true else net1.clogged_node_out n }
        else net1

/-- `Network::unclog_node`: panics when the node is absent. -/
def unclog_node (net : Network) (id : NodeId) (d : Direction) : Option Network :=
  match net.nodes id with
  | none => none
  | some _ =>
      let net1 :=
        if d = Direction.In ∨ d = Direction.Both then
          { net with clogged_node_in := fun n => if n = id then false else net.clogged_node_in n }
        else net
      some <|
        if d = Direction.Out ∨ d = Direction.Both then
          { net1 with clogged_node_out := fun n => if n = id then false else net1.clogged_node_out n }
        else net1

/-- `Network::clog_link`: panics when either node is absent. -/
def clog_link (net : Network) (src dst : NodeId) : Option Network :=
  match net.nodes src, net.nodes dst with
  | some _, some _ =>
      some { net with
        clogged_link := fun p => if p = (src, dst) then true else net.clogged_link p }
  | _, _ => none

/-- `Network::unclog_link`: panics when either node is absent. -/
def unclog_link (net : Network) (src dst : NodeId) : Option Network :=
  match net.nodes src, net.nodes dst with
  | some _, some _ =>
      some { net with
        clogged_link := fun p => if p = (src, dst) then false else net.clogged_link p }
  | _, _ => none

/-- `Network::link_clogged`. -/
def link_clogged (net : Network) (src dst : NodeId) : Bool :=
  net.clogged_node_out src || net.clogged_node_in dst
    || net.clogged_link (src, dst)

/-- Bind-time error kinds (`io::ErrorKind`). -/
inductive BindErr where
  | addrNotAvailable
  | addrInUse
deriving DecidableEq, Repr

/-- The ephemeral-port search `(1..=u16::MAX).find(...)`: first port `p`
starting at `start` with `fuel` candidates left such that
`((ip, p), protocol)` is free in the node's table. -/
def findFreePort (node : Node) (ip : IpAddr) (protocol : IpProtocol) :
    Nat → Nat → Option Nat
  | 0, _ => none
  | fuel + 1, start =>
      if (node.sockets (⟨ip, start⟩, protocol)).isSome then
        findFreePort node ip protocol fuel (start + 1)
      else some start

/-- `Network::bind`: panics (`none`) when the node is absent; otherwise
checks the IP, resolves port 0 to the first free ephemeral port, and
inserts the socket unless the key is occupied. -/
def bind (net : Network) (node_id : NodeId) (addr : SocketAddr)
    (protocol : IpProtocol) (socket : Socket) :
    Option (Except BindErr (SocketAddr × Network)) :=
  match net.nodes node_id with
  | none => none
  | some node =>
      if !addr.ip.is_unspecified && !addr.ip.is_loopback
          && (match node.ip with
              | some ip => decide (addr.ip ≠ ip)
              | none => false) then
        some (.error .addrNotAvailable)
      else
        let addr1? : Option SocketAddr :=
          if addr.port = 0 then
            match findFreePort node addr.ip protocol 65535 1 with
            | none => none
            | some p => some ⟨addr.ip, p⟩
          else some addr
        match addr1? with
        | none => some (.error .addrInUse)
        | some addr1 =>
            match node.sockets (addr1, protocol) with
            | some _ => some (.error .addrInUse)
            | none =>
                some (.ok (addr1,
                  { net with
                    nodes := fun n =>
                      if n = node_id then
                        some { node with
                          sockets := fun k =>
                            if k = (addr1, protocol) then some socket
                            else node.sockets k }
                      else net.nodes n }))

/-- `Network::close`: panics when the node is absent. -/
def close (net : Network) (node_id : NodeId) (addr : SocketAddr)
    (protocol : IpProtocol) : Option Network :=
  match net.nodes node_id with
  | none => none
  | some node =>
      some { net with
        nodes := fun n =>
          if n = node_id then
            some { node with
              sockets := fun k => if k = (addr, protocol) then none
                                  else node.sockets k }
          else net.nodes n }

/-- `Network::test_link`: short-circuit clog check, then one loss roll,
then (on admission) the counter bump and one latency draw. -/
def test_link (net : Network) (src dst : NodeId) : Option Duration × Network :=
  if net.link_clogged src dst then (none, net)
  else
    let (lost, r1) := net.rand.gen_bool (F64.toRat net.config.packet_loss_rate)
    if lost then (none, { net with rand := r1 })
    else
      let (lat, r2) := r1.gen_range net.config.send_latency.1 net.config.send_latency.2
      (some lat, { net with rand := r2, stat := ⟨net.stat.msg_count + 1⟩ })

/-- `Network::resolve_dest_node`: outer `none` is the panic on an absent
source node; inner `none` is a resolution miss. -/
def resolve_dest_node (net : Network) (node : NodeId) (dst : SocketAddr)
    (protocol : IpProtocol) : Option (Option NodeId) :=
  match net.nodes node with
  | none => none
  | some node0 =>
      if dst.ip.is_loopback || (node0.sockets (dst, protocol)).isSome then
        some (some node)
      else if node0.ip.isNone then
        some none
      else
        match net.addr_to_node dst.ip with
        | some x => some (some x)
        | none => some none

/-- Outcome of `try_send`. -/
inductive SendResult where
  | panicked
  | noDelivery
  | delivered (src_ip : IpAddr) (dst_node : NodeId) (socket : Socket)
      (latency : Duration)
deriving DecidableEq, Repr

/-- `Network::try_send`. -/
def try_send (net : Network) (node : NodeId) (dst : SocketAddr)
    (protocol : IpProtocol) : SendResult × Network :=
  match resolve_dest_node net node dst protocol with
  | none => (.panicked, net)
  | some none => (.noDelivery, net)
  | some (some dst_node) =>
      match test_link net node dst_node with
      | (none, net1) => (.noDelivery, net1)
      | (some latency, net1) =>
          match net1.nodes dst_node with
          | none => (.noDelivery, net1)
          | some dnode =>
              let ep? :=
                match dnode.sockets (dst, protocol) with
                | some s => some s
                | none => dnode.sockets (⟨IpAddr.unspecified, dst.port⟩, protocol)
              match ep? with
              | none => (.noDelivery, net1)
              | some ep =>
                  if dst.ip.is_loopback then
                    (.delivered IpAddr.localhost dst_node ep latency, net1)
                  else
                    match net1.nodes node with
                    | none => (.panicked, net1)
                    | some n =>
                        match n.ip with
                        | none => (.panicked, net1)
                        | some ip => (.delivered ip dst_node ep latency, net1)

/-- `Network::abort_task_on_reset`: panics when the node is absent, else
appends the cancel handle to the node's list. -/
def abort_task_on_reset (net : Network) (node_id : NodeId) (handle : TaskHandle) :
    Option Network :=
  match net.nodes node_id with
  | none => none
  | some node =>
      some { net with
        nodes := fun n =>
          if n = node_id then some { node with tasks := node.tasks ++ [handle] }
          else net.nodes n }

end Network

/-! ## Fault-set mutation sequences (for the clog/unclog round trip) -/

/-- A single clogging mutation. -/
inductive ClogOp where
  | node (id : NodeId) (d : Direction)
  | link (src dst : NodeId)

/-- Apply one clog mutation. -/
def applyClog : ClogOp → Network → Option Network
  | .node id d, net => net.clog_node id d
  | .link s t, net => net.clog_link s t

/-- Apply the unclog call that reverses one clog mutation. -/
def applyUnclog : ClogOp → Network → Option Network
  | .node id d, net => net.unclog_node id d
  | .link s t, net => net.unclog_link s t

/-- Apply a sequence of clog mutations. -/
def applyClogs : List ClogOp → Network → Option Network
  | [], net => some net
  | op :: rest, net => (applyClog op net).bind (applyClogs rest)

/-- Apply a sequence of unclog calls. -/
def applyUnclogs : List ClogOp → Network → Option Network
  | [], net => some net
  | op :: rest, net => (applyUnclog op net).bind (applyUnclogs rest)

/-- Whether a mutation inserts `x` into `clogged_node_in`. -/
def opSetsIn (op : ClogOp) (x : NodeId) : Bool :=
  match op with
  | .node id d => x == id && (d == .In || d == .Both)
  | .link _ _ => false

/-- Whether a mutation inserts `x` into `clogged_node_out`. -/
def opSetsOut (op : ClogOp) (x : NodeId) : Bool :=
  match op with
  | .node id d => x == id && (d == .Out || d == .Both)
  | .link _ _ => false

/-- Whether a mutation inserts `p` into `clogged_link`. -/
def opSetsLink (op : ClogOp) (p : NodeId × NodeId) : Bool :=
  match op with
  | .node _ _ => false
  | .link s t => p == (s, t)

/-- The mutation only clogs items that are not already clogged in `net`. -/
def opFresh (net : Network) (op : ClogOp) : Bool :=
  match op with
  | .node id d =>
      !((d == .In || d == .Both) && net.clogged_node_in id)
        && !((d == .Out || d == .Both) && net.clogged_node_out id)
  | .link s t => !net.clogged_link (s, t)

/-! ## Operation datatype (for the configuration invariant) -/

/-- One management or data-plane operation on the network.  A `none` result
of `step` is a Rust panic. -/
inductive NetOp where
  | insert_node (id : NodeId)
  | reset_node (id : NodeId)
  | set_ip (id : NodeId) (ip : IpAddr)
  | clog_node (id : NodeId) (d : Direction)
  | unclog_node (id : NodeId) (d : Direction)
  | clog_link (src dst : NodeId)
  | unclog_link (src dst : NodeId)
  | bindOp (id : NodeId) (addr : SocketAddr) (protocol : IpProtocol) (socket : Socket)
  | closeOp (id : NodeId) (addr : SocketAddr) (protocol : IpProtocol)
  | sendOp (id : NodeId) (dst : SocketAddr) (protocol : IpProtocol)
  | abortTask (id : NodeId) (h : TaskHandle)
  | update_config (f : Config → Config)

/-- State transition of one operation (bind errors leave the state as the
socket is not registered; a panic is `none`). -/
def NetOp.step : NetOp → Network → Option Network
  | .insert_node id, net => some (net.insert_node id)
  | .reset_node id, net => net.reset_node id
  | .set_ip id ip, net => net.set_ip id ip
  | .clog_node id d, net => net.clog_node id d
  | .unclog_node id d, net => net.unclog_node id d
  | .clog_link s t, net => net.clog_link s t
  | .unclog_link s t, net => net.unclog_link s t
  | .bindOp id a p s, net =>
      (net.bind id a p s).map fun r =>
        match r with
        | .ok (_, net') => net'
        | .error _ => net
  | .closeOp id a p, net => net.close id a p
  | .sendOp id dst p, net =>
      match net.try_send id dst p with
      | (.panicked, _) => none
      | (_, net') => some net'
  | .abortTask id h, net => net.abort_task_on_reset id h
  | .update_config f, net => some (net.update_config f)

/-! ## Observers and concrete fixtures -/

/-- Address returned by a successful bind. -/
def bindOkAddr (r : Option (Except Network.BindErr (SocketAddr × Network))) :
    Option SocketAddr :=
  match r with
  | some (.ok (a, _)) => some a
  | _ => none

/-- Ports returned by two successive port-0 binds on the same node. -/
def bindTwicePorts (net : Network) (id : NodeId) (ip : IpAddr)
    (protocol : IpProtocol) : Option (Nat × Nat) :=
  match net.bind id ⟨ip, 0⟩ protocol 7 with
  | some (.ok (a1, net1)) =>
      match net1.bind id ⟨ip, 0⟩ protocol 8 with
      | some (.ok (a2, _)) => some (a1.port, a2.port)
      | _ => none
  | _ => none

/-- All-zero draw stream. -/
def rng0 : Rng := ⟨fun _ => 0, 0⟩

/-- A node holding IP `10.0.0.1`, one bound socket and one task handle. -/
def nodeA : Node :=
  { ip := some (IpAddr.v4 10 0 0 1)
    sockets := fun k => if k = (⟨IpAddr.v4 10 0 0 1, 80⟩, .Udp) then some 3 else none
    tasks := [5] }

/-- A node with no IP and no sockets. -/
def nodeFree : Node := { ip := none, sockets := fun _ => none, tasks := [] }

/-- A node with no IP that bound a socket under the foreign address
`10.0.0.1:5`. -/
def nodeForeign : Node :=
  { ip := none
    sockets := fun k => if k = (⟨IpAddr.v4 10 0 0 1, 5⟩, .Udp) then some 7 else none
    tasks := [] }

/-- A node with no IP and a socket on `127.0.0.1:1`. -/
def nodeLoop : Node :=
  { ip := none
    sockets := fun k => if k = (⟨IpAddr.localhost, 1⟩, .Udp) then some 7 else none
    tasks := [] }

/-- Network fixture with `nodeA` registered as node 0 and its IP in the
reverse index. -/
def netA : Network :=
  { rand := rng0
    config := Config.default
    stat := ⟨0⟩
    nodes := fun n => if n = 0 then some nodeA else none
    addr_to_node := fun a => if a = IpAddr.v4 10 0 0 1 then some 0 else none
    clogged_node_in := fun _ => false
    clogged_node_out := fun _ => false
    clogged_link := fun _ => false }

/-- Network fixture with the IP-less `nodeFree` as node 0. -/
def netFree : Network :=
  { netA with nodes := fun n => if n = 0 then some nodeFree else none
              addr_to_node := fun _ => none }

/-- Network fixture with `nodeForeign` as node 0 (send latency `1..10`). -/
def netForeign : Network :=
  { netA with nodes := fun n => if n = 0 then some nodeForeign else none
              addr_to_node := fun _ => none
              config := ⟨0, (1, 10)⟩ }

/-- Network fixture with `nodeLoop` as node 0 (send latency `1..10`). -/
def netLoop : Network :=
  { netA with nodes := fun n => if n = 0 then some nodeLoop else none
              addr_to_node := fun _ => none
              config := ⟨0, (1, 10)⟩ }

/-- `netLoop` with node 0 clogged outbound. -/
def netLoopClogged : Network :=
  { netLoop with clogged_node_out := fun n => n == 0 }

/-- `netA` with node 0 already clogged outbound (a non-fresh start state). -/
def netPreClogged : Network :=
  { netA with clogged_node_out := fun n => n == 0 }

/-- Behaviour of a loopback `try_send` from node `A` holding record `nd`,
written as an explicit function of the state: the fault model is consulted
exactly through `link_clogged A A` (dropping with the PRNG untouched when
it holds), then one loss roll, then the counter bump, one latency draw and
socket lookup, presenting the loopback source IP.  Stated for comparison
with `Network.try_send`. -/
def loopbackSendModel (net : Network) (A : NodeId) (nd : Node)
    (dst : SocketAddr) (protocol : IpProtocol) : Network.SendResult × Network :=
  if net.link_clogged A A then (.noDelivery, net)
  else if net.rand.f net.rand.idx < F64.toRat net.config.packet_loss_rate then
    (.noDelivery, { net with rand := ⟨net.rand.f, net.rand.idx + 1⟩ })
  else
    let lat := net.config.send_latency.1 +
      (⌊net.rand.f (net.rand.idx + 1) *
        ((net.config.send_latency.2 - net.config.send_latency.1 : Nat) : ℚ)⌋).toNat
    let netAfter : Network :=
      { net with rand := ⟨net.rand.f, net.rand.idx + 2⟩,
                 stat := ⟨net.stat.msg_count + 1⟩ }
    match (match nd.sockets (dst, protocol) with
           | some s => some s
           | none => nd.sockets (⟨IpAddr.unspecified, dst.port⟩, protocol)) with
    | none => (.noDelivery, netAfter)
    | some ep => (.delivered IpAddr.localhost A ep lat, netAfter)

/-- A configuration mutation that breaks the latency invariant. -/
def breakLatency : Config → Config := fun c => ⟨c.packet_loss_rate, (5, 5)⟩

/-- Config with rate bits of `+0.0`. -/
def cfgPosZero : Config := ⟨0, (1, 2)⟩

/-- Config with rate bits of `-0.0`. -/
def cfgNegZero : Config := ⟨2 ^ 63, (1, 2)⟩

/-- Config with a NaN rate bit pattern. -/
def cfgNaN : Config := ⟨2047 * 2 ^ 52 + 1, (1, 2)⟩

/-! ## C10: `insert_node` overwrites silently -/

/-- C10: `insert_node` never fails and does not check uniqueness: on an `id`
already present it replaces that node's record with a fresh empty one
(discarding its IP, sockets and cancel handles), while every other node,
the reverse IP index (including any stale entry for the old IP), the fault
sets, the configuration and the statistics are unchanged. -/
theorem insert_node_overwrites (net : Network) (id : NodeId) (r : Node)
    (ip : IpAddr) (hr : net.nodes id = some r)
    (hip : net.addr_to_node ip = some id) :
    (net.insert_node id).nodes id = some Node.default ∧
    (∀ m, m ≠ id → (net.insert_node id).nodes m = net.nodes m) ∧
    (net.insert_node id).addr_to_node = net.addr_to_node ∧
    (net.insert_node id).addr_to_node ip = some id ∧
    (net.insert_node id).clogged_node_in = net.clogged_node_in ∧
    (net.insert_node id).clogged_node_out = net.clogged_node_out ∧
    (net.insert_node id).clogged_link = net.clogged_link ∧
    (net.insert_node id).config = net.config ∧
    (net.insert_node id).stat = net.stat := by
  refine ⟨by simp [Network.insert_node], fun m hm => by simp [Network.insert_node, hm],
    rfl, hip, rfl, rfl, rfl, rfl, rfl⟩

/-- Witness for C10 at a concrete network: node 0 holds a record with an IP,
a socket and a task handle, and the reverse index maps `10.0.0.1` to it. -/
theorem insert_node_overwrites_witness :
    (netA.insert_node 0).nodes 0 = some Node.default ∧
    (∀ m, m ≠ 0 → (netA.insert_node 0).nodes m = netA.nodes m) ∧
    (netA.insert_node 0).addr_to_node = netA.addr_to_node ∧
    (netA.insert_node 0).addr_to_node (IpAddr.v4 10 0 0 1) = some 0 ∧
    (netA.insert_node 0).clogged_node_in = netA.clogged_node_in ∧
    (netA.insert_node 0).clogged_node_out = netA.clogged_node_out ∧
    (netA.insert_node 0).clogged_link = netA.clogged_link ∧
    (netA.insert_node 0).config = netA.config ∧
    (netA.insert_node 0).stat = netA.stat :=
  insert_node_overwrites netA 0 nodeA (IpAddr.v4 10 0 0 1) rfl rfl

/-! ## C8: `reset_node` clears sockets and handles, frames the rest -/

/-- C8: `reset_node` panics when the node is absent; on a registered node it
empties the node's socket table and drops all its cancel handles while
keeping its assigned IP, and leaves every other node, the reverse index,
the fault sets, the configuration, the statistics and the PRNG unchanged. -/
theorem reset_node_spec (net : Network) (id : NodeId) :
    (net.nodes id = none → net.reset_node id = none) ∧
    (∀ r, net.nodes id = some r →
      ∃ net', net.reset_node id = some net' ∧
        net'.nodes id =
          some { ip := r.ip, sockets := fun _ => none, tasks := [] } ∧
        (∀ m, m ≠ id → net'.nodes m = net.nodes m) ∧
        net'.addr_to_node = net.addr_to_node ∧
        net'.clogged_node_in = net.clogged_node_in ∧
        net'.clogged_node_out = net.clogged_node_out ∧
        net'.clogged_link = net.clogged_link ∧
        net'.config = net.config ∧
        net'.stat = net.stat ∧
        net'.rand = net.rand) := by
  constructor
  · intro h
    simp [Network.reset_node, h]
  · intro r hr
    refine ⟨{ net with nodes := fun n => if n = id then some { ip := r.ip, sockets := fun _ => none, tasks := [] } else net.nodes n }, ?_, by simp, fun m hm => by simp [hm], rfl, rfl, rfl, rfl, rfl, rfl, rfl⟩
    simp [Network.reset_node, hr]

/-- `test_link` only touches the PRNG and the statistics: every other
component of the state is unchanged. -/
theorem test_link_snd_frame (net : Network) (s d : NodeId) :
    (net.test_link s d).2.nodes = net.nodes ∧
    (net.test_link s d).2.config = net.config ∧
    (net.test_link s d).2.addr_to_node = net.addr_to_node ∧
    (net.test_link s d).2.clogged_node_in = net.clogged_node_in ∧
    (net.test_link s d).2.clogged_node_out = net.clogged_node_out ∧
    (net.test_link s d).2.clogged_link = net.clogged_link := by
  unfold Network.test_link Rng.gen_bool Rng.gen_range
  dsimp only
  split
  · exact ⟨rfl, rfl, rfl, rfl, rfl, rfl⟩
  · split
    · exact ⟨rfl, rfl, rfl, rfl, rfl, rfl⟩
    · exact ⟨rfl, rfl, rfl, rfl, rfl, rfl⟩

/-- Resolution never panics when the source node is registered. -/
theorem resolve_dest_node_ne_none (net : Network) (A : NodeId) (nd : Node)
    (dst : SocketAddr) (protocol : IpProtocol) (hA : net.nodes A = some nd) :
    net.resolve_dest_node A dst protocol ≠ none := by
  unfold Network.resolve_dest_node
  rw [hA]
  dsimp only
  split
  · simp
  · split
    · simp
    · split <;> simp

/-- A non-loopback destination with no matching self-socket and no source
IP makes resolution fail (rather than resolve). -/
theorem resolve_dest_node_miss (net : Network) (A : NodeId) (nd : Node)
    (dst : SocketAddr) (protocol : IpProtocol) (hA : net.nodes A = some nd)
    (hlb : dst.ip.is_loopback = false)
    (hs : nd.sockets (dst, protocol) = none) (hip : nd.ip = none) :
    net.resolve_dest_node A dst protocol = some none := by
  unfold Network.resolve_dest_node
  rw [hA]
  simp [hlb, hs, hip]

/-! ## C9: ephemeral port allocation -/

/-- A successful ephemeral-port search returns the least free port at or
after `start` within the fuel window, and every earlier candidate is
taken. -/
theorem findFreePort_some_spec (nd : Node) (ip : IpAddr)
    (protocol : IpProtocol) :
    ∀ fuel start p, Network.findFreePort nd ip protocol fuel start = some p →
      start ≤ p ∧ p < start + fuel ∧
      (nd.sockets (⟨ip, p⟩, protocol)).isSome = false ∧
      ∀ q, start ≤ q → q < p → (nd.sockets (⟨ip, q⟩, protocol)).isSome = true := by
  intro fuel
  induction fuel with
  | zero =>
      intro start p h
      simp [Network.findFreePort] at h
  | succ n ih =>
      intro start p h
      unfold Network.findFreePort at h
      by_cases hs : (nd.sockets (⟨ip, start⟩, protocol)).isSome = true
      · rw [if_pos hs] at h
        obtain ⟨h1, h2, h3, h4⟩ := ih (start + 1) p h
        refine ⟨by omega, by omega, h3, fun q hq1 hq2 => ?_⟩
        rcases Nat.eq_or_lt_of_le hq1 with hq | hq
        · rw [← hq]
          exact hs
        · exact h4 q hq hq2
      · rw [if_neg hs] at h
        cases h
        refine ⟨Nat.le_refl _, by omega, by simpa using hs,
          fun q hq1 hq2 => absurd (Nat.lt_of_le_of_lt hq1 hq2) (Nat.lt_irrefl _)⟩

/-- A failed ephemeral-port search means every candidate in the fuel window
is taken. -/
theorem findFreePort_none_spec (nd : Node) (ip : IpAddr)
    (protocol : IpProtocol) :
    ∀ fuel start, Network.findFreePort nd ip protocol fuel start = none →
      ∀ q, start ≤ q → q < start + fuel →
        (nd.sockets (⟨ip, q⟩, protocol)).isSome = true := by
  intro fuel
  induction fuel with
  | zero =>
      intro start _ q hq1 hq2
      omega
  | succ n ih =>
      intro start h q hq1 hq2
      unfold Network.findFreePort at h
      by_cases hs : (nd.sockets (⟨ip, start⟩, protocol)).isSome = true
      · rw [if_pos hs] at h
        rcases Nat.eq_or_lt_of_le hq1 with hq | hq
        · rw [← hq]
          exact hs
        · exact ih (start + 1) h q hq (by omega)
      · rw [if_neg hs] at h
        cases h

/-- C9: when `bind` receives port 0 and the IP check passes, the chosen
port is the least `p` in `1..=65535` whose key `((addr.ip, p), protocol)`
is not in the node's socket table and the returned address carries it; when
every port is taken, `bind` fails with `AddrInUse`. -/
theorem bind_ephemeral_port (net : Network) (N : NodeId) (nd : Node)
    (addr : SocketAddr) (protocol : IpProtocol) (socket : Socket)
    (hn : net.nodes N = some nd) (hp : addr.port = 0)
    (hip : (!addr.ip.is_unspecified && !addr.ip.is_loopback &&
        (match nd.ip with
         | some ip => decide (addr.ip ≠ ip)
         | none => false)) = false) :
    (∀ p, Network.findFreePort nd addr.ip protocol 65535 1 = some p →
      (1 ≤ p ∧ p ≤ 65535 ∧
        (nd.sockets (⟨addr.ip, p⟩, protocol)).isSome = false ∧
        ∀ q, 1 ≤ q → q < p →
          (nd.sockets (⟨addr.ip, q⟩, protocol)).isSome = true) ∧
      ∃ net', net.bind N addr protocol socket =
        some (.ok (⟨addr.ip, p⟩, net'))) ∧
    (Network.findFreePort nd addr.ip protocol 65535 1 = none →
      (∀ q, 1 ≤ q → q ≤ 65535 →
        (nd.sockets (⟨addr.ip, q⟩, protocol)).isSome = true) ∧
      net.bind N addr protocol socket = some (.error .addrInUse)) := by
  have hcond : ¬ ((!addr.ip.is_unspecified && !addr.ip.is_loopback &&
      (match nd.ip with
       | some ip => decide (addr.ip ≠ ip)
       | none => false)) = true) := by
    rw [hip]
    simp
  constructor
  · intro p hfind
    obtain ⟨h1, h2, hfree, hleast⟩ :=
      findFreePort_some_spec nd addr.ip protocol 65535 1 p hfind
    refine ⟨⟨h1, by omega, hfree, hleast⟩, ?_⟩
    have hnone : nd.sockets (⟨addr.ip, p⟩, protocol) = none := by
      cases hx : nd.sockets (⟨addr.ip, p⟩, protocol) with
      | none => rfl
      | some v =>
          rw [hx] at hfree
          simp at hfree
    have hbind : net.bind N addr protocol socket = some (.ok (⟨addr.ip, p⟩, { net with nodes := fun n => if n = N then some { ip := nd.ip, sockets := fun k => if k = (⟨addr.ip, p⟩, protocol) then some socket else nd.sockets k, tasks := nd.tasks } else net.nodes n })) := by
      unfold Network.bind
      rw [hn]
      dsimp only
      rw [if_neg hcond, if_pos hp, hfind]
      dsimp only
      rw [hnone]
    exact ⟨_, hbind⟩
  · intro hfind
    constructor
    · intro q hq1 hq2
      exact findFreePort_none_spec nd addr.ip protocol 65535 1 hfind q hq1
        (by omega)
    · unfold Network.bind
      rw [hn]
      dsimp only
      rw [if_neg hcond, if_pos hp, hfind]

/-- Witness for C9: on the empty-socket node 0 of `netFree`, a wildcard
port-0 bind picks port 1, and a second port-0 bind picks port 2. -/
theorem bind_ephemeral_port_witness :
    ((∀ p, Network.findFreePort nodeFree IpAddr.unspecified .Udp 65535 1 =
        some p →
      (1 ≤ p ∧ p ≤ 65535 ∧
        (nodeFree.sockets (⟨IpAddr.unspecified, p⟩, .Udp)).isSome = false ∧
        ∀ q, 1 ≤ q → q < p →
          (nodeFree.sockets (⟨IpAddr.unspecified, q⟩, .Udp)).isSome = true) ∧
      ∃ net', netFree.bind 0 ⟨IpAddr.unspecified, 0⟩ .Udp 7 =
        some (.ok (⟨IpAddr.unspecified, p⟩, net'))) ∧
    (Network.findFreePort nodeFree IpAddr.unspecified .Udp 65535 1 = none →
      (∀ q, 1 ≤ q → q ≤ 65535 →
        (nodeFree.sockets (⟨IpAddr.unspecified, q⟩, .Udp)).isSome = true) ∧
      netFree.bind 0 ⟨IpAddr.unspecified, 0⟩ .Udp 7 =
        some (.error .addrInUse))) ∧
    Network.findFreePort nodeFree IpAddr.unspecified .Udp 65535 1 = some 1 ∧
    bindTwicePorts netFree 0 IpAddr.unspecified .Udp = some (1, 2) :=
  ⟨bind_ephemeral_port netFree 0 nodeFree ⟨IpAddr.unspecified, 0⟩ .Udp 7
      rfl rfl rfl, rfl, rfl⟩

/-! ## C5: PRNG consumption order in `test_link` -/

/-- C5: `test_link` consumes PRNG state in a fixed order: a clogged link
drops the packet with the whole state (PRNG included) unchanged; otherwise
exactly one loss roll is drawn first and, only if it admits the packet,
`msg_count` is incremented by one and exactly one latency value is drawn
from `[send_latency.lo, send_latency.hi)`; `msg_count` is unchanged on
every dropped outcome. -/
theorem test_link_rng_order (net : Network) (src dst : NodeId)
    (hv0 : 0 ≤ net.rand.f (net.rand.idx + 1))
    (hv1 : net.rand.f (net.rand.idx + 1) < 1)
    (hlt : net.config.send_latency.1 < net.config.send_latency.2) :
    (net.link_clogged src dst = true → net.test_link src dst = (none, net)) ∧
    (net.link_clogged src dst = false →
      (net.rand.f net.rand.idx < F64.toRat net.config.packet_loss_rate →
        net.test_link src dst =
          (none, { net with rand := ⟨net.rand.f, net.rand.idx + 1⟩ })) ∧
      (¬ net.rand.f net.rand.idx < F64.toRat net.config.packet_loss_rate →
        ∃ d, net.test_link src dst =
            (some d, { net with rand := ⟨net.rand.f, net.rand.idx + 2⟩,
                                stat := ⟨net.stat.msg_count + 1⟩ }) ∧
          net.config.send_latency.1 ≤ d ∧ d < net.config.send_latency.2)) := by
  refine ⟨fun hc => ?_, fun hc => ⟨fun hloss => ?_, fun hadmit => ?_⟩⟩
  · simp [Network.test_link, hc]
  · simp [Network.test_link, hc, Rng.gen_bool, hloss]
  · refine ⟨net.config.send_latency.1 +
      (⌊net.rand.f (net.rand.idx + 1) *
        ((net.config.send_latency.2 - net.config.send_latency.1 : Nat) : ℚ)⌋).toNat,
      ?_, ?_, ?_⟩
    · simp [Network.test_link, hc, Rng.gen_bool, Rng.gen_range, hadmit]
    · exact Nat.le_add_right _ _
    · have hpos : (0 : ℚ) <
          ((net.config.send_latency.2 - net.config.send_latency.1 : Nat) : ℚ) := by
        have : 0 < net.config.send_latency.2 - net.config.send_latency.1 := by omega
        exact_mod_cast this
      have hmul : net.rand.f (net.rand.idx + 1) *
          ((net.config.send_latency.2 - net.config.send_latency.1 : Nat) : ℚ) <
          ((net.config.send_latency.2 - net.config.send_latency.1 : Nat) : ℚ) := by
        calc net.rand.f (net.rand.idx + 1) *
              ((net.config.send_latency.2 - net.config.send_latency.1 : Nat) : ℚ)
            < 1 * ((net.config.send_latency.2 - net.config.send_latency.1 : Nat) : ℚ) :=
              mul_lt_mul_of_pos_right hv1 hpos
          _ = _ := one_mul _
      have hfl : ⌊net.rand.f (net.rand.idx + 1) *
          ((net.config.send_latency.2 - net.config.send_latency.1 : Nat) : ℚ)⌋ <
          ((net.config.send_latency.2 - net.config.send_latency.1 : Nat) : ℤ) := by
        rw [Int.floor_lt]
        exact_mod_cast hmul
      have htn : (⌊net.rand.f (net.rand.idx + 1) *
          ((net.config.send_latency.2 - net.config.send_latency.1 : Nat) : ℚ)⌋).toNat <
          net.config.send_latency.2 - net.config.send_latency.1 := by
        omega
      calc net.config.send_latency.1 +
            (⌊net.rand.f (net.rand.idx + 1) *
              ((net.config.send_latency.2 - net.config.send_latency.1 : Nat) : ℚ)⌋).toNat
          < net.config.send_latency.1 +
            (net.config.send_latency.2 - net.config.send_latency.1) :=
            Nat.add_lt_add_left htn _
        _ = net.config.send_latency.2 := by omega

/-- Witness for C5 on a concrete network with an all-zero draw stream, zero
loss rate and latency range `1..10`. -/
theorem test_link_rng_order_witness :
    (netLoop.link_clogged 0 0 = true → netLoop.test_link 0 0 = (none, netLoop)) ∧
    (netLoop.link_clogged 0 0 = false →
      (netLoop.rand.f netLoop.rand.idx <
          F64.toRat netLoop.config.packet_loss_rate →
        netLoop.test_link 0 0 =
          (none, { netLoop with rand := ⟨netLoop.rand.f, netLoop.rand.idx + 1⟩ })) ∧
      (¬ netLoop.rand.f netLoop.rand.idx <
          F64.toRat netLoop.config.packet_loss_rate →
        ∃ d, netLoop.test_link 0 0 =
            (some d, { netLoop with rand := ⟨netLoop.rand.f, netLoop.rand.idx + 2⟩,
                                    stat := ⟨netLoop.stat.msg_count + 1⟩ }) ∧
          netLoop.config.send_latency.1 ≤ d ∧
          d < netLoop.config.send_latency.2)) :=
  test_link_rng_order netLoop 0 0 (by norm_num [netLoop, netA, rng0])
    (by norm_num [netLoop, netA, rng0]) (by norm_num [netLoop, netA])

/-! ## C3: IP acceptance at bind -/

/-- C3 counterexample: node 0 of `netFree` has no assigned IP, yet binding
the non-wildcard, non-loopback address `10.0.0.1:5` succeeds instead of
returning `AddrNotAvailable` as the claim demands. -/
theorem bind_no_ip_counterexample :
    (netFree.nodes 0).map Node.ip = some none ∧
    (IpAddr.v4 10 0 0 1).is_unspecified = false ∧
    (IpAddr.v4 10 0 0 1).is_loopback = false ∧
    bindOkAddr (netFree.bind 0 ⟨IpAddr.v4 10 0 0 1, 5⟩ .Udp 7) =
      some ⟨IpAddr.v4 10 0 0 1, 5⟩ := by
  refine ⟨rfl, rfl, rfl, rfl⟩

/-- C3 amended: a wildcard or loopback IP always passes the address check;
a non-wildcard, non-loopback IP is rejected with `AddrNotAvailable` exactly
when the node has an assigned IP and the address differs from it — a node
with no assigned IP accepts any IP. -/
theorem bind_ip_check (net : Network) (N : NodeId) (nd : Node)
    (addr : SocketAddr) (protocol : IpProtocol) (socket : Socket)
    (hn : net.nodes N = some nd) :
    ((addr.ip.is_unspecified = true ∨ addr.ip.is_loopback = true) →
      net.bind N addr protocol socket ≠ some (.error .addrNotAvailable)) ∧
    (addr.ip.is_unspecified = false → addr.ip.is_loopback = false →
      ∀ ip, nd.ip = some ip → addr.ip ≠ ip →
        net.bind N addr protocol socket = some (.error .addrNotAvailable)) ∧
    (addr.ip.is_unspecified = false → addr.ip.is_loopback = false →
      (nd.ip = none ∨ nd.ip = some addr.ip) →
        net.bind N addr protocol socket ≠ some (.error .addrNotAvailable)) := by
  have hbody : ∀ h : ¬ (!addr.ip.is_unspecified && !addr.ip.is_loopback
        && (match nd.ip with
            | some ip => decide (addr.ip ≠ ip)
            | none => false)) = true,
      net.bind N addr protocol socket ≠ some (.error .addrNotAvailable) := by
    intro h
    unfold Network.bind
    rw [hn]
    dsimp only
    rw [if_neg h]
    split
    · simp
    · split <;> simp
  refine ⟨?_, ?_, ?_⟩
  · rintro (h | h) <;>
      { apply hbody
        simp [h] }
  · intro hu hl ip hip hne
    unfold Network.bind
    rw [hn]
    simp [hu, hl, hip, hne]
  · intro hu hl hip
    apply hbody
    rcases hip with h | h <;> simp [h]

/-- Witness for C3 at concrete inputs: node 0 of `netA` owns `10.0.0.1`,
and binding `10.0.0.2:5` is rejected with `AddrNotAvailable`. -/
theorem bind_ip_check_witness :
    netA.bind 0 ⟨IpAddr.v4 10 0 0 2, 5⟩ .Udp 7 =
      some (.error .addrNotAvailable) :=
  (bind_ip_check netA 0 nodeA ⟨IpAddr.v4 10 0 0 2, 5⟩ .Udp 7 rfl).2.1 rfl rfl
    (IpAddr.v4 10 0 0 1) rfl (by decide)

/-- Witness for C8 at a concrete network: node 0 is registered with an IP,
one socket and one cancel handle. -/
theorem reset_node_spec_witness :
    ∃ net', netA.reset_node 0 = some net' ∧
      net'.nodes 0 =
        some { ip := nodeA.ip, sockets := fun _ => none, tasks := [] } ∧
      (∀ m, m ≠ 0 → net'.nodes m = netA.nodes m) ∧
      net'.addr_to_node = netA.addr_to_node ∧
      net'.clogged_node_in = netA.clogged_node_in ∧
      net'.clogged_node_out = netA.clogged_node_out ∧
      net'.clogged_link = netA.clogged_link ∧
      net'.config = netA.config ∧
      net'.stat = netA.stat ∧
      net'.rand = netA.rand :=
  (reset_node_spec netA 0).2 nodeA rfl

/-! ## C1: loopback and the fault model -/

/-- C1 counterexample: with node 0 bound on `127.0.0.1:1`, the loopback
send delivers on the clean network but is dropped once node 0 is clogged
outbound — the two networks differ only in the fault sets, so the outcome
of a loopback `try_send` is affected by the source's membership in
`clogged_out`. -/
theorem try_send_loopback_counterexample :
    (⟨IpAddr.localhost, 1⟩ : SocketAddr).ip.is_loopback = true ∧
    netLoopClogged.clogged_node_out 0 = true ∧
    netLoopClogged.rand = netLoop.rand ∧
    netLoopClogged.config = netLoop.config ∧
    netLoopClogged.stat = netLoop.stat ∧
    netLoopClogged.nodes = netLoop.nodes ∧
    (netLoop.try_send 0 ⟨IpAddr.localhost, 1⟩ .Udp).1 =
      .delivered IpAddr.localhost 0 7 1 ∧
    (netLoopClogged.try_send 0 ⟨IpAddr.localhost, 1⟩ .Udp).1 = .noDelivery := by
  refine ⟨rfl, rfl, rfl, rfl, rfl, rfl, ?_, ?_⟩
  · norm_num [Network.try_send, Network.resolve_dest_node, Network.test_link,
      Network.link_clogged, Rng.gen_bool, Rng.gen_range, netLoop, netA, nodeLoop,
      rng0, F64.toRat, F64.mag, F64.sign, F64.expo, F64.frac,
      IpAddr.is_loopback, IpAddr.localhost, IpAddr.unspecified]
  · norm_num [Network.try_send, Network.resolve_dest_node, Network.test_link,
      Network.link_clogged, Rng.gen_bool, Rng.gen_range, netLoopClogged, netLoop,
      netA, nodeLoop, rng0, F64.toRat, F64.mag, F64.sign, F64.expo, F64.frac,
      IpAddr.is_loopback, IpAddr.localhost, IpAddr.unspecified]

/-- C1 amended: a loopback `try_send` bypasses address resolution (no IP
needs to be assigned or resolved) but not the fault model: it behaves as
`loopbackSendModel`, which drops with the PRNG untouched exactly when
`link_clogged A A` holds (so it is affected by `A ∈ clogged_out`,
`A ∈ clogged_in` and `(A, A) ∈ clogged_link`, and by nothing else in the
fault sets) and otherwise runs the loss roll and latency sampling. -/
theorem try_send_loopback (net : Network) (A : NodeId) (nd : Node)
    (dst : SocketAddr) (protocol : IpProtocol)
    (hl : dst.ip.is_loopback = true) (hA : net.nodes A = some nd) :
    net.try_send A dst protocol = loopbackSendModel net A nd dst protocol := by
  have hres : net.resolve_dest_node A dst protocol = some (some A) := by
    unfold Network.resolve_dest_node
    rw [hA]
    simp [hl]
  unfold Network.try_send
  rw [hres]
  unfold Network.test_link loopbackSendModel Rng.gen_bool Rng.gen_range
  dsimp only
  by_cases hc : net.link_clogged A A = true
  · rw [if_pos hc, if_pos hc]
  · rw [if_neg hc, if_neg hc]
    by_cases hu : net.rand.f net.rand.idx < F64.toRat net.config.packet_loss_rate
    · rw [decide_eq_true hu]
      rw [if_pos hu]
      simp
    · rw [decide_eq_false hu]
      rw [if_neg hu]
      simp only [Bool.false_eq_true, if_false]
      rw [hA]
      dsimp only
      cases hE : nd.sockets (dst, protocol) with
      | some s => simp [hl]
      | none =>
          dsimp only
          cases hW : nd.sockets (⟨IpAddr.unspecified, dst.port⟩, protocol) with
          | none => rfl
          | some ep => simp [hl]

/-- Witness for C1 at a concrete network: node 0 of `netLoop` has a socket
on `127.0.0.1:1` and no IP assigned. -/
theorem try_send_loopback_witness :
    netLoop.try_send 0 ⟨IpAddr.localhost, 1⟩ .Udp =
      loopbackSendModel netLoop 0 nodeLoop ⟨IpAddr.localhost, 1⟩ .Udp :=
  try_send_loopback netLoop 0 nodeLoop ⟨IpAddr.localhost, 1⟩ .Udp rfl rfl

/-! ## C4: the source-IP unwrap in `try_send` -/

/-- C4 counterexample: node 0 of `netForeign` has no IP but bound a socket
at the foreign address `10.0.0.1:5`; resolution takes the self-socket
shortcut and the link oracle admits the packet, yet `try_send` hits the
source-IP unwrap with no IP assigned and panics. -/
theorem try_send_unwrap_counterexample :
    (netForeign.nodes 0).map Node.ip = some none ∧
    (⟨IpAddr.v4 10 0 0 1, 5⟩ : SocketAddr).ip.is_loopback = false ∧
    netForeign.resolve_dest_node 0 ⟨IpAddr.v4 10 0 0 1, 5⟩ .Udp =
      some (some 0) ∧
    (netForeign.test_link 0 0).1.isSome = true ∧
    (netForeign.try_send 0 ⟨IpAddr.v4 10 0 0 1, 5⟩ .Udp).1 = .panicked := by
  refine ⟨rfl, rfl, rfl, ?_, ?_⟩
  · norm_num [Network.test_link, Network.link_clogged, Rng.gen_bool,
      Rng.gen_range, netForeign, netA, rng0, F64.toRat, F64.mag, F64.sign,
      F64.expo, F64.frac]
  · norm_num [Network.try_send, Network.resolve_dest_node, Network.test_link,
      Network.link_clogged, Rng.gen_bool, Rng.gen_range, netForeign, netA,
      nodeForeign, rng0, F64.toRat, F64.mag, F64.sign, F64.expo, F64.frac,
      IpAddr.is_loopback, IpAddr.unspecified]

/-- C4 amended: the source-IP unwrap in `try_send` never panics provided
the source node did not reach it through the self-socket shortcut with no
IP assigned — that is, whenever the source node has an assigned IP, or has
no socket bound at exactly the destination key (so resolution would have
required its IP); the counterexample shows the remaining case really
panics. -/
theorem try_send_no_panic (net : Network) (A : NodeId) (nd : Node)
    (dst : SocketAddr) (protocol : IpProtocol) (hA : net.nodes A = some nd)
    (h : nd.sockets (dst, protocol) = none ∨ nd.ip.isSome = true) :
    (net.try_send A dst protocol).1 ≠ .panicked := by
  unfold Network.try_send
  cases hres : net.resolve_dest_node A dst protocol with
  | none => exact absurd hres (resolve_dest_node_ne_none net A nd dst protocol hA)
  | some r =>
      cases r with
      | none => simp
      | some dst_node =>
          dsimp only
          rcases hd : net.test_link A dst_node with ⟨lat?, net1⟩
          cases lat? with
          | none => simp
          | some latency =>
              dsimp only
              cases hdn : net1.nodes dst_node with
              | none => simp
              | some dnode =>
                  dsimp only
                  cases hep : (match dnode.sockets (dst, protocol) with
                      | some s => some s
                      | none => dnode.sockets
                          (⟨IpAddr.unspecified, dst.port⟩, protocol)) with
                  | none => simp
                  | some ep =>
                      dsimp only
                      by_cases hlb : dst.ip.is_loopback = true
                      · rw [if_pos hlb]
                        simp
                      · rw [if_neg hlb]
                        have hn1 : net1.nodes A = some nd := by
                          have := (test_link_snd_frame net A dst_node).1
                          rw [hd] at this
                          rw [this, hA]
                        rw [hn1]
                        dsimp only
                        cases hip : nd.ip with
                        | some ip => simp
                        | none =>
                            exfalso
                            rcases h with hs | hsome
                            · have := resolve_dest_node_miss net A nd dst
                                protocol hA (Bool.eq_false_iff.mpr hlb) hs hip
                              rw [hres] at this
                              simp at this
                            · rw [hip] at hsome
                              simp at hsome

/-- Witness for C4 at a concrete network: node 0 of `netA` has an assigned
IP, so its sends never reach the panic. -/
theorem try_send_no_panic_witness :
    (netA.try_send 0 ⟨IpAddr.v4 10 0 0 1, 80⟩ .Udp).1 ≠ .panicked :=
  try_send_no_panic netA 0 nodeA ⟨IpAddr.v4 10 0 0 1, 80⟩ .Udp rfl (Or.inr rfl)

/-! ## C6: clog/unclog round trip -/

/-- One clog mutation, applied successfully, inserts exactly what
`opSetsIn`/`opSetsOut`/`opSetsLink` describe and touches nothing else. -/
theorem applyClog_some (op : ClogOp) (net net1 : Network)
    (h : applyClog op net = some net1) :
    net1.nodes = net.nodes ∧
    (∀ x, net1.clogged_node_in x = (net.clogged_node_in x || opSetsIn op x)) ∧
    (∀ x, net1.clogged_node_out x = (net.clogged_node_out x || opSetsOut op x)) ∧
    (∀ p, net1.clogged_link p = (net.clogged_link p || opSetsLink op p)) := by
  cases op with
  | node id d =>
      unfold applyClog Network.clog_node at h
      dsimp only at h
      cases hn : net.nodes id with
      | none => rw [hn] at h; cases h
      | some nd =>
          rw [hn] at h
          dsimp only at h
          cases d with
          | In =>
              simp at h
              subst h
              refine ⟨rfl, fun x => ?_, fun x => by simp [opSetsOut], fun p => by simp [opSetsLink]⟩
              by_cases hx : x = id <;> simp [opSetsIn, hx]
          | Out =>
              simp at h
              subst h
              refine ⟨rfl, fun x => by simp [opSetsIn], fun x => ?_, fun p => by simp [opSetsLink]⟩
              by_cases hx : x = id <;> simp [opSetsOut, hx]
          | Both =>
              simp at h
              subst h
              refine ⟨rfl, fun x => ?_, fun x => ?_, fun p => by simp [opSetsLink]⟩
              · by_cases hx : x = id <;> simp [opSetsIn, hx]
              · by_cases hx : x = id <;> simp [opSetsOut, hx]
  | link s t =>
      unfold applyClog Network.clog_link at h
      dsimp only at h
      cases hs : net.nodes s with
      | none => rw [hs] at h; cases h
      | some nds =>
          cases ht : net.nodes t with
          | none => rw [hs, ht] at h; cases h
          | some ndt =>
              rw [hs, ht] at h
              dsimp only at h
              cases h
              refine ⟨rfl, fun x => by simp [opSetsIn], fun x => by simp [opSetsOut], fun p => ?_⟩
              by_cases hp : p = (s, t) <;> simp [opSetsLink, hp]

/-- The unclog call reversing one mutation, applied successfully, erases
exactly what the mutation inserts and touches nothing else. -/
theorem applyUnclog_some (op : ClogOp) (net net1 : Network)
    (h : applyUnclog op net = some net1) :
    net1.nodes = net.nodes ∧
    (∀ x, net1.clogged_node_in x = (net.clogged_node_in x && !opSetsIn op x)) ∧
    (∀ x, net1.clogged_node_out x = (net.clogged_node_out x && !opSetsOut op x)) ∧
    (∀ p, net1.clogged_link p = (net.clogged_link p && !opSetsLink op p)) := by
  cases op with
  | node id d =>
      unfold applyUnclog Network.unclog_node at h
      dsimp only at h
      cases hn : net.nodes id with
      | none => rw [hn] at h; cases h
      | some nd =>
          rw [hn] at h
          dsimp only at h
          cases d with
          | In =>
              simp at h
              subst h
              refine ⟨rfl, fun x => ?_, fun x => by simp [opSetsOut], fun p => by simp [opSetsLink]⟩
              by_cases hx : x = id <;> simp [opSetsIn, hx]
          | Out =>
              simp at h
              subst h
              refine ⟨rfl, fun x => by simp [opSetsIn], fun x => ?_, fun p => by simp [opSetsLink]⟩
              by_cases hx : x = id <;> simp [opSetsOut, hx]
          | Both =>
              simp at h
              subst h
              refine ⟨rfl, fun x => ?_, fun x => ?_, fun p => by simp [opSetsLink]⟩
              · by_cases hx : x = id <;> simp [opSetsIn, hx]
              · by_cases hx : x = id <;> simp [opSetsOut, hx]
  | link s t =>
      unfold applyUnclog Network.unclog_link at h
      dsimp only at h
      cases hs : net.nodes s with
      | none => rw [hs] at h; cases h
      | some nds =>
          cases ht : net.nodes t with
          | none => rw [hs, ht] at h; cases h
          | some ndt =>
              rw [hs, ht] at h
              dsimp only at h
              cases h
              refine ⟨rfl, fun x => by simp [opSetsIn], fun x => by simp [opSetsOut], fun p => ?_⟩
              by_cases hp : p = (s, t) <;> simp [opSetsLink, hp]

/-- A successful clog sequence adds exactly the union of its mutations'
insertions. -/
theorem applyClogs_some (ops : List ClogOp) :
    ∀ net net1, applyClogs ops net = some net1 →
      net1.nodes = net.nodes ∧
      (∀ x, net1.clogged_node_in x =
        (net.clogged_node_in x || ops.any (fun op => opSetsIn op x))) ∧
      (∀ x, net1.clogged_node_out x =
        (net.clogged_node_out x || ops.any (fun op => opSetsOut op x))) ∧
      (∀ p, net1.clogged_link p =
        (net.clogged_link p || ops.any (fun op => opSetsLink op p))) := by
  induction ops with
  | nil =>
      intro net net1 h
      cases h
      simp
  | cons op rest ih =>
      intro net net1 h
      unfold applyClogs at h
      cases hop : applyClog op net with
      | none => rw [hop] at h; cases h
      | some netM =>
          rw [hop] at h
          dsimp only [Option.bind] at h
          obtain ⟨hn0, hi0, ho0, hl0⟩ := applyClog_some op net netM hop
          obtain ⟨hn1, hi1, ho1, hl1⟩ := ih netM net1 h
          refine ⟨by rw [hn1, hn0], fun x => ?_, fun x => ?_, fun p => ?_⟩
          · rw [hi1, hi0]
            simp [Bool.or_assoc]
          · rw [ho1, ho0]
            simp [Bool.or_assoc]
          · rw [hl1, hl0]
            simp [Bool.or_assoc]

/-- A successful unclog sequence removes exactly the union of its
mutations' insertions. -/
theorem applyUnclogs_some (ops : List ClogOp) :
    ∀ net net1, applyUnclogs ops net = some net1 →
      net1.nodes = net.nodes ∧
      (∀ x, net1.clogged_node_in x =
        (net.clogged_node_in x && !ops.any (fun op => opSetsIn op x))) ∧
      (∀ x, net1.clogged_node_out x =
        (net.clogged_node_out x && !ops.any (fun op => opSetsOut op x))) ∧
      (∀ p, net1.clogged_link p =
        (net.clogged_link p && !ops.any (fun op => opSetsLink op p))) := by
  induction ops with
  | nil =>
      intro net net1 h
      cases h
      simp
  | cons op rest ih =>
      intro net net1 h
      unfold applyUnclogs at h
      cases hop : applyUnclog op net with
      | none => rw [hop] at h; cases h
      | some netM =>
          rw [hop] at h
          dsimp only [Option.bind] at h
          obtain ⟨hn0, hi0, ho0, hl0⟩ := applyUnclog_some op net netM hop
          obtain ⟨hn1, hi1, ho1, hl1⟩ := ih netM net1 h
          refine ⟨by rw [hn1, hn0], fun x => ?_, fun x => ?_, fun p => ?_⟩
          · rw [hi1, hi0]
            simp [Bool.and_assoc]
          · rw [ho1, ho0]
            simp [Bool.and_assoc]
          · rw [hl1, hl0]
            simp [Bool.and_assoc]

/-- Freshness transfer: if every mutation in the sequence only clogs items
that are unclogged in `net`, then any item some mutation inserts is
unclogged in `net`. -/
theorem fresh_not_in (ops : List ClogOp) (net : Network)
    (hfresh : ops.all (opFresh net) = true) :
    (∀ x, ops.any (fun op => opSetsIn op x) = true →
      net.clogged_node_in x = false) ∧
    (∀ x, ops.any (fun op => opSetsOut op x) = true →
      net.clogged_node_out x = false) ∧
    (∀ p, ops.any (fun op => opSetsLink op p) = true →
      net.clogged_link p = false) := by
  rw [List.all_eq_true] at hfresh
  refine ⟨fun x hx => ?_, fun x hx => ?_, fun p hp => ?_⟩
  · rw [List.any_eq_true] at hx
    obtain ⟨op, hmem, hset⟩ := hx
    have hf := hfresh op hmem
    cases op with
    | node id d =>
        simp [opSetsIn] at hset
        obtain ⟨rfl, hd⟩ := hset
        unfold opFresh at hf
        rcases hd with hd | hd <;> subst hd <;> simp at hf <;> tauto
    | link s t => simp [opSetsIn] at hset
  · rw [List.any_eq_true] at hx
    obtain ⟨op, hmem, hset⟩ := hx
    have hf := hfresh op hmem
    cases op with
    | node id d =>
        simp [opSetsOut] at hset
        obtain ⟨rfl, hd⟩ := hset
        unfold opFresh at hf
        rcases hd with hd | hd <;> subst hd <;> simp at hf <;> tauto
    | link s t => simp [opSetsOut] at hset
  · rw [List.any_eq_true] at hp
    obtain ⟨op, hmem, hset⟩ := hp
    have hf := hfresh op hmem
    cases op with
    | node id d => simp [opSetsLink] at hset
    | link s t =>
        simp [opSetsLink] at hset
        subst hset
        unfold opFresh at hf
        simpa using hf

/-- C6 amended: for every start state, every sequence of clog_node /
clog_link mutations that only clogs items not already clogged in the start
state, and every pair (a, b): after the unclog calls reversing each
mutation, `link_clogged a b` equals its value before the sequence. -/
theorem clog_unclog_roundtrip (net netM netF : Network) (ops : List ClogOp)
    (a b : NodeId) (hfresh : ops.all (opFresh net) = true)
    (h1 : applyClogs ops net = some netM)
    (h2 : applyUnclogs ops.reverse netM = some netF) :
    netF.link_clogged a b = net.link_clogged a b := by
  obtain ⟨-, hiM, hoM, hlM⟩ := applyClogs_some ops net netM h1
  obtain ⟨-, hiF, hoF, hlF⟩ := applyUnclogs_some ops.reverse netM netF h2
  obtain ⟨fin, fout, flink⟩ := fresh_not_in ops net hfresh
  unfold Network.link_clogged
  have hout : netF.clogged_node_out a = net.clogged_node_out a := by
    rw [hoF, hoM, List.any_reverse]
    cases hA : ops.any (fun op => opSetsOut op a) with
    | true => rw [fout a hA]; simp
    | false => simp
  have hin : netF.clogged_node_in b = net.clogged_node_in b := by
    rw [hiF, hiM, List.any_reverse]
    cases hA : ops.any (fun op => opSetsIn op b) with
    | true => rw [fin b hA]; simp
    | false => simp
  have hlk : netF.clogged_link (a, b) = net.clogged_link (a, b) := by
    rw [hlF, hlM, List.any_reverse]
    cases hA : ops.any (fun op => opSetsLink op (a, b)) with
    | true => rw [flink (a, b) hA]; simp
    | false => simp
  rw [hout, hin, hlk]

/-- C6 counterexample: starting from a state where node 0 is already
clogged outbound, clogging it again and then reversing the mutation leaves
`link_clogged 0 0` false, though it was true before the sequence. -/
theorem clog_unclog_counterexample :
    netPreClogged.link_clogged 0 0 = true ∧
    ((applyClogs [ClogOp.node 0 .Out] netPreClogged).bind
        (applyUnclogs [ClogOp.node 0 .Out])).map
      (fun n => n.link_clogged 0 0) = some false := by
  refine ⟨rfl, rfl⟩

/-- Witness for C6: on the clean `netA`, clogging node 0 both ways plus
the link (0,0) and then reversing both restores `link_clogged 0 0`. -/
theorem clog_unclog_roundtrip_witness :
    ∃ netM netF,
      applyClogs [ClogOp.node 0 .Both, ClogOp.link 0 0] netA = some netM ∧
      applyUnclogs ([ClogOp.node 0 .Both, ClogOp.link 0 0].reverse) netM =
        some netF ∧
      netF.link_clogged 0 0 = netA.link_clogged 0 0 :=
  ⟨_, _, rfl, rfl, clog_unclog_roundtrip netA _ _ [ClogOp.node 0 .Both, ClogOp.link 0 0] 0 0 rfl rfl rfl⟩

/-! ## C7: the latency-range invariant -/

/-- `try_send` never changes the configuration. -/
theorem try_send_snd_config (net : Network) (id : NodeId) (dst : SocketAddr)
    (protocol : IpProtocol) :
    (net.try_send id dst protocol).2.config = net.config := by
  unfold Network.try_send
  cases hres : net.resolve_dest_node id dst protocol with
  | none => rfl
  | some r =>
      cases r with
      | none => rfl
      | some dst_node =>
          dsimp only
          rcases htl : net.test_link id dst_node with ⟨lat?, net1⟩
          have hc : net1.config = net.config := by
            have := (test_link_snd_frame net id dst_node).2.1
            rw [htl] at this
            exact this
          cases lat? with
          | none => exact hc
          | some latency =>
              dsimp only
              cases net1.nodes dst_node with
              | none => exact hc
              | some dnode =>
                  dsimp only
                  cases (match dnode.sockets (dst, protocol) with
                      | some s => some s
                      | none => dnode.sockets
                          (⟨IpAddr.unspecified, dst.port⟩, protocol)) with
                  | none => exact hc
                  | some ep =>
                      dsimp only
                      by_cases hlb : dst.ip.is_loopback = true
                      · rw [if_pos hlb]
                        exact hc
                      · rw [if_neg hlb]
                        cases net1.nodes id with
                        | none => exact hc
                        | some n =>
                            dsimp only
                            cases n.ip with
                            | none => exact hc
                            | some ip => exact hc

/-- A successful bind never changes the configuration. -/
theorem bind_ok_config (net : Network) (id : NodeId) (addr : SocketAddr)
    (protocol : IpProtocol) (socket : Socket) (a' : SocketAddr)
    (netB : Network)
    (h : net.bind id addr protocol socket = some (.ok (a', netB))) :
    netB.config = net.config := by
  unfold Network.bind at h
  cases hn : net.nodes id <;> rw [hn] at h
  · cases h
  · dsimp only at h
    split at h
    · cases h
    · split at h
      · cases h
      · split at h
        · cases h
        · simp only [Option.some.injEq, Except.ok.injEq, Prod.mk.injEq] at h
          obtain ⟨-, h2⟩ := h
          subst h2
          rfl

/-- C7 counterexample: `update_config` applies an arbitrary mutation; from
the default configuration (which satisfies `lo < hi`) one `update_config`
step yields a state violating `send_latency.lo < send_latency.hi`. -/
theorem send_latency_counterexample :
    Config.default.send_latency.1 < Config.default.send_latency.2 ∧
    (NetOp.step (.update_config breakLatency)
        (Network.new rng0 Config.default)).map
      (fun n => decide (n.config.send_latency.1 < n.config.send_latency.2)) =
      some false := by
  refine ⟨by norm_num [Config.default, Config.default_send_latency], rfl⟩

/-- C7 amended: the strict invariant `send_latency.lo < send_latency.hi`
holds in the default configuration and is preserved by every operation
except `update_config`, which applies an arbitrary mutation and preserves
the invariant exactly when the supplied function does. -/
theorem send_latency_invariant :
    Config.default.send_latency.1 < Config.default.send_latency.2 ∧
    (∀ (op : NetOp) (net net' : Network), NetOp.step op net = some net' →
      net.config.send_latency.1 < net.config.send_latency.2 →
      (∀ f, op = NetOp.update_config f →
        (f net.config).send_latency.1 < (f net.config).send_latency.2) →
      net'.config.send_latency.1 < net'.config.send_latency.2) := by
  constructor
  · norm_num [Config.default, Config.default_send_latency]
  · intro op net net' h hinv hupd
    cases op with
    | insert_node id =>
        cases h
        exact hinv
    | reset_node id =>
        dsimp only [NetOp.step] at h
        unfold Network.reset_node at h
        cases hn : net.nodes id <;> rw [hn] at h
        · cases h
        · cases h
          exact hinv
    | set_ip id ip =>
        dsimp only [NetOp.step] at h
        unfold Network.set_ip at h
        cases hn : net.nodes id <;> rw [hn] at h
        · cases h
        · dsimp only at h
          split at h
          · cases h
          · cases h
            exact hinv
    | clog_node id d =>
        dsimp only [NetOp.step] at h
        unfold Network.clog_node at h
        cases hn : net.nodes id <;> rw [hn] at h
        · cases h
        · cases h
          split <;> split <;> exact hinv
    | unclog_node id d =>
        dsimp only [NetOp.step] at h
        unfold Network.unclog_node at h
        cases hn : net.nodes id <;> rw [hn] at h
        · cases h
        · cases h
          split <;> split <;> exact hinv
    | clog_link s t =>
        dsimp only [NetOp.step] at h
        unfold Network.clog_link at h
        cases hs : net.nodes s <;> rw [hs] at h
        · cases h
        · cases ht : net.nodes t <;> rw [ht] at h
          · cases h
          · cases h
            exact hinv
    | unclog_link s t =>
        dsimp only [NetOp.step] at h
        unfold Network.unclog_link at h
        cases hs : net.nodes s <;> rw [hs] at h
        · cases h
        · cases ht : net.nodes t <;> rw [ht] at h
          · cases h
          · cases h
            exact hinv
    | bindOp id a p s =>
        dsimp only [NetOp.step] at h
        cases hb : net.bind id a p s <;> rw [hb] at h
        · cases h
        · next r =>
            dsimp only [Option.map] at h
            cases r with
            | error e =>
                cases h
                exact hinv
            | ok pr =>
                rcases pr with ⟨a', netB⟩
                cases h
                have := bind_ok_config net id a p s a' netB hb
                rw [this]
                exact hinv
    | closeOp id a p =>
        dsimp only [NetOp.step] at h
        unfold Network.close at h
        cases hn : net.nodes id <;> rw [hn] at h
        · cases h
        · cases h
          exact hinv
    | sendOp id dst p =>
        dsimp only [NetOp.step] at h
        rcases hts : net.try_send id dst p with ⟨r, net1⟩
        rw [hts] at h
        have hcfg : net1.config = net.config := by
          have := try_send_snd_config net id dst p
          rw [hts] at this
          exact this
        cases r with
        | panicked => cases h
        | noDelivery =>
            cases h
            rw [hcfg]
            exact hinv
        | delivered a b c d =>
            cases h
            rw [hcfg]
            exact hinv
    | abortTask id hd =>
        dsimp only [NetOp.step] at h
        unfold Network.abort_task_on_reset at h
        cases hn : net.nodes id <;> rw [hn] at h
        · cases h
        · cases h
          exact hinv
    | update_config f =>
        cases h
        exact hupd f rfl

/-- Witness for C7: one `clog_node` step from `netA` (whose configuration
is the default) preserves the invariant. -/
theorem send_latency_invariant_witness :
    ∃ net', NetOp.step (.clog_node 0 .Both) netA = some net' ∧
      net'.config.send_latency.1 < net'.config.send_latency.2 :=
  ⟨_, rfl, send_latency_invariant.2 (.clog_node 0 .Both) netA _ rfl
    (by norm_num [netA, Config.default, Config.default_send_latency])
    (fun f hf => absurd hf (by simp))⟩

/-! ## C2: Config equality and hashing -/

/-- The fraction field is below `2^52`. -/
theorem f64_frac_lt (b : Nat) : F64.frac b < 2 ^ 52 :=
  Nat.mod_lt _ (by norm_num)

/-- The decoded magnitude is nonnegative. -/
theorem f64_mag_nonneg (b : Nat) : 0 ≤ F64.mag b := by
  unfold F64.mag
  split <;> positivity

/-- The decoded magnitude vanishes exactly on the two zero patterns. -/
theorem f64_mag_eq_zero_iff (b : Nat) :
    F64.mag b = 0 ↔ (F64.expo b = 0 ∧ F64.frac b = 0) := by
  unfold F64.mag
  split
  · next he =>
      constructor
      · intro hz
        refine ⟨he, ?_⟩
        have h2 : F64.frac b * 2 = 0 := by
          field_simp at hz
          exact_mod_cast hz
        omega
      · rintro ⟨-, hf⟩
        rw [hf]
        norm_num
  · next he =>
      constructor
      · intro hz
        exfalso
        have hpos : (0 : ℚ) <
            ((2 ^ 52 + F64.frac b : Nat) : ℚ) * 2 ^ F64.expo b / 2 ^ 1075 := by
          positivity
        rw [hz] at hpos
        exact lt_irrefl 0 hpos
      · rintro ⟨he0, -⟩
        exact absurd he0 he

/-- Cancellation core for normal significands: equal products force equal
exponents and fractions. -/
theorem f64_pow_cancel (fa fb ea eb : Nat) (hfa : fa < 2 ^ 52)
    (hfb : fb < 2 ^ 52)
    (h : (2 ^ 52 + fa) * 2 ^ ea = (2 ^ 52 + fb) * 2 ^ eb) (hle : ea ≤ eb) :
    ea = eb ∧ fa = fb := by
  obtain ⟨k, rfl⟩ := Nat.exists_eq_add_of_le hle
  have h' : (2 ^ 52 + fa) * 2 ^ ea = ((2 ^ 52 + fb) * 2 ^ k) * 2 ^ ea := by
    rw [h, pow_add]
    ring
  have hcancel : 2 ^ 52 + fa = (2 ^ 52 + fb) * 2 ^ k :=
    Nat.eq_of_mul_eq_mul_right (Nat.pos_pow_of_pos ea (by norm_num)) h'
  cases k with
  | zero =>
      rw [pow_zero, Nat.mul_one] at hcancel
      omega
  | succ m =>
      exfalso
      have h2 : 2 ^ (m + 1) ≥ 2 := by
        calc (2 : Nat) = 2 ^ 1 := (pow_one 2).symm
          _ ≤ 2 ^ (m + 1) := Nat.pow_le_pow_right (by norm_num) (by omega)
      have : (2 ^ 52 + fb) * 2 ^ (m + 1) ≥ (2 ^ 52) * 2 :=
        Nat.mul_le_mul (by omega) h2
      omega

/-- IEEE decoding of magnitudes is injective on the exponent and fraction
fields. -/
theorem f64_mag_inj (a b : Nat) (h : F64.mag a = F64.mag b) :
    F64.expo a = F64.expo b ∧ F64.frac a = F64.frac b := by
  have hfa := f64_frac_lt a
  have hfb := f64_frac_lt b
  unfold F64.mag at h
  by_cases hea : F64.expo a = 0 <;> by_cases heb : F64.expo b = 0
  · rw [if_pos hea, if_pos heb] at h
    field_simp at h
    have hf : F64.frac a = F64.frac b := by exact_mod_cast h
    exact ⟨hea.trans heb.symm, hf⟩
  · exfalso
    rw [if_pos hea, if_neg heb] at h
    field_simp at h
    have hh : F64.frac a * 2 = (2 ^ 52 + F64.frac b) * 2 ^ F64.expo b := by
      exact_mod_cast h
    have h2 : 2 ^ F64.expo b ≥ 2 := by
      calc (2 : Nat) = 2 ^ 1 := (pow_one 2).symm
        _ ≤ 2 ^ F64.expo b := Nat.pow_le_pow_right (by norm_num) (by omega)
    have : (2 ^ 52 + F64.frac b) * 2 ^ F64.expo b ≥ (2 ^ 52) * 2 :=
      Nat.mul_le_mul (by omega) h2
    omega
  · exfalso
    rw [if_neg hea, if_pos heb] at h
    field_simp at h
    have hh : (2 ^ 52 + F64.frac a) * 2 ^ F64.expo a = F64.frac b * 2 := by
      exact_mod_cast h
    have h2 : 2 ^ F64.expo a ≥ 2 := by
      calc (2 : Nat) = 2 ^ 1 := (pow_one 2).symm
        _ ≤ 2 ^ F64.expo a := Nat.pow_le_pow_right (by norm_num) (by omega)
    have : (2 ^ 52 + F64.frac a) * 2 ^ F64.expo a ≥ (2 ^ 52) * 2 :=
      Nat.mul_le_mul (by omega) h2
    omega
  · rw [if_neg hea, if_neg heb] at h
    field_simp at h
    have hh : (2 ^ 52 + F64.frac a) * 2 ^ F64.expo a =
        (2 ^ 52 + F64.frac b) * 2 ^ F64.expo b := by
      exact_mod_cast h
    rcases Nat.le_total (F64.expo a) (F64.expo b) with hle | hle
    · exact f64_pow_cancel _ _ _ _ hfa hfb hh hle
    · obtain ⟨h1, h2⟩ := f64_pow_cancel _ _ _ _ hfb hfa hh.symm hle
      exact ⟨h1.symm, h2.symm⟩

/-- A 64-bit pattern is determined by its sign, exponent and fraction
fields. -/
theorem f64_ext (a b : Nat) (ha : a < 2 ^ 64) (hb : b < 2 ^ 64)
    (hs : F64.sign a = F64.sign b) (he : F64.expo a = F64.expo b)
    (hf : F64.frac a = F64.frac b) : a = b := by
  unfold F64.sign at hs
  unfold F64.expo at he
  unfold F64.frac at hf
  omega

/-- The sign field is a single bit. -/
theorem f64_sign_lt (b : Nat) : F64.sign b < 2 :=
  Nat.mod_lt _ (by norm_num)

/-- IEEE decoding to rationals identifies exactly the two zero patterns
(of equal range), and nothing else. -/
theorem f64_toRat_inj (a b : Nat) (ha : a < 2 ^ 64) (hb : b < 2 ^ 64) :
    F64.toRat a = F64.toRat b ↔
      (a = b ∨ (F64.isZeroMag a = true ∧ F64.isZeroMag b = true)) := by
  have hza : F64.isZeroMag a = true ↔ (F64.expo a = 0 ∧ F64.frac a = 0) := by
    unfold F64.isZeroMag
    simp
  have hzb : F64.isZeroMag b = true ↔ (F64.expo b = 0 ∧ F64.frac b = 0) := by
    unfold F64.isZeroMag
    simp
  constructor
  · intro h
    unfold F64.toRat at h
    by_cases hsa : F64.sign a = 1 <;> by_cases hsb : F64.sign b = 1
    · rw [if_pos hsa, if_pos hsb] at h
      have hm : F64.mag a = F64.mag b := neg_inj.mp h
      obtain ⟨he, hf⟩ := f64_mag_inj a b hm
      exact Or.inl (f64_ext a b ha hb (hsa.trans hsb.symm) he hf)
    · rw [if_pos hsa, if_neg hsb] at h
      have hma : F64.mag a = 0 ∧ F64.mag b = 0 := by
        constructor <;>
          nlinarith [f64_mag_nonneg a, f64_mag_nonneg b]
      refine Or.inr ⟨hza.mpr ((f64_mag_eq_zero_iff a).mp hma.1),
        hzb.mpr ((f64_mag_eq_zero_iff b).mp hma.2)⟩
    · rw [if_neg hsa, if_pos hsb] at h
      have hma : F64.mag a = 0 ∧ F64.mag b = 0 := by
        constructor <;>
          nlinarith [f64_mag_nonneg a, f64_mag_nonneg b]
      refine Or.inr ⟨hza.mpr ((f64_mag_eq_zero_iff a).mp hma.1),
        hzb.mpr ((f64_mag_eq_zero_iff b).mp hma.2)⟩
    · rw [if_neg hsa, if_neg hsb] at h
      obtain ⟨he, hf⟩ := f64_mag_inj a b h
      have hs : F64.sign a = F64.sign b := by
        have h1 := f64_sign_lt a
        have h2 := f64_sign_lt b
        omega
      exact Or.inl (f64_ext a b ha hb hs he hf)
  · rintro (rfl | ⟨h1, h2⟩)
    · rfl
    · have hm1 : F64.mag a = 0 := (f64_mag_eq_zero_iff a).mpr (hza.mp h1)
      have hm2 : F64.mag b = 0 := (f64_mag_eq_zero_iff b).mpr (hzb.mp h2)
      unfold F64.toRat
      rw [hm1, hm2]
      split <;> split <;> norm_num

/-- C2 counterexample: derived equality of `Config` is float equality, not
bit equality — `+0.0` and `-0.0` compare equal with different bit patterns
(yet hash differently), and a NaN-rate config does not even equal itself
(yet hashes identically to itself). -/
theorem config_eq_counterexample :
    Config.beq cfgPosZero cfgNegZero = true ∧
    cfgPosZero.packet_loss_rate ≠ cfgNegZero.packet_loss_rate ∧
    Config.hashInput cfgPosZero ≠ Config.hashInput cfgNegZero ∧
    Config.beq cfgNaN cfgNaN = false ∧
    Config.hashInput cfgNaN = Config.hashInput cfgNaN := by
  have hz1 : F64.toRat 0 = 0 := by
    norm_num [F64.toRat, F64.mag, F64.sign, F64.expo, F64.frac]
  have hz2 : F64.toRat (2 ^ 63) = 0 := by
    norm_num [F64.toRat, F64.mag, F64.sign, F64.expo, F64.frac]
  refine ⟨?_, by decide, by decide, ?_, rfl⟩
  · unfold Config.beq F64.beq cfgPosZero cfgNegZero
    rw [hz1, hz2]
    norm_num [F64.isNaN, F64.expo, F64.frac]
  · unfold Config.beq F64.beq cfgNaN
    norm_num [F64.isNaN, F64.expo, F64.frac]

/-- C2 amended: equality of `Config` treats `packet_loss_rate` by IEEE
float equality — it holds iff neither rate is NaN, the rates are bit-equal
or both are (possibly differently signed) zeros, and the latency ranges
are equal; hashing is bit-exact — the words fed to the hasher coincide iff
the bit patterns and the ranges are equal, so two Configs differing only
by a NaN bit pattern hash differently while a NaN-rate config never equals
itself. -/
theorem config_eq_hash_spec (c1 c2 : Config)
    (h1 : c1.packet_loss_rate < 2 ^ 64) (h2 : c2.packet_loss_rate < 2 ^ 64) :
    (Config.beq c1 c2 = true ↔
      (F64.isNaN c1.packet_loss_rate = false ∧
        F64.isNaN c2.packet_loss_rate = false ∧
        (c1.packet_loss_rate = c2.packet_loss_rate ∨
          (F64.isZeroMag c1.packet_loss_rate = true ∧
            F64.isZeroMag c2.packet_loss_rate = true)) ∧
        c1.send_latency = c2.send_latency)) ∧
    (Config.hashInput c1 = Config.hashInput c2 ↔
      (c1.packet_loss_rate = c2.packet_loss_rate ∧
        c1.send_latency = c2.send_latency)) := by
  constructor
  · unfold Config.beq F64.beq
    simp only [Bool.and_eq_true, Bool.not_eq_true', decide_eq_true_eq,
      beq_iff_eq]
    rw [f64_toRat_inj _ _ h1 h2]
    rw [Prod.ext_iff]
    tauto
  · unfold Config.hashInput
    simp only [Prod.mk.injEq, Prod.ext_iff]

/-- Witness for C2 at concrete configurations: the default Config equals
itself and hashes like itself. -/
theorem config_eq_hash_spec_witness :
    (Config.beq Config.default Config.default = true ↔
      (F64.isNaN Config.default.packet_loss_rate = false ∧
        F64.isNaN Config.default.packet_loss_rate = false ∧
        (Config.default.packet_loss_rate = Config.default.packet_loss_rate ∨
          (F64.isZeroMag Config.default.packet_loss_rate = true ∧
            F64.isZeroMag Config.default.packet_loss_rate = true)) ∧
        Config.default.send_latency = Config.default.send_latency)) ∧
    (Config.hashInput Config.default = Config.hashInput Config.default ↔
      (Config.default.packet_loss_rate = Config.default.packet_loss_rate ∧
        Config.default.send_latency = Config.default.send_latency)) :=
  config_eq_hash_spec Config.default Config.default (by norm_num [Config.default]) (by norm_num [Config.default])
